import Mathlib

/-!
Shallow embedding of `warehouse/legacy/api/xmlrpc/views.py`: the XML-RPC
gateway's fault taxonomy, output sanitizer, rate-limiter adapter, parameter
validation, cache-tag resolution, endpoint registration, and the query
handlers, together with theorems settling the specification claims.
-/

/-- A Python exception as observed by the fault layer: its class name and the
text `str(exc)` renders to. -/
structure PyExc where
  kind : String
  detail : String
deriving Repr, DecidableEq

/-- An XML-RPC protocol fault: numeric code plus message string. -/
structure Fault where
  faultCode : Int
  faultString : String
deriving Repr, DecidableEq

/-- `XMLRPCServiceUnavailable` from the source: fixed fault code `-32403` and
fixed fault string. -/
def XMLRPCServiceUnavailable : Fault :=
  { faultCode := -32403, faultString := "server error; service unavailable" }

/-- `XMLRPCWrappedError(exc)` from the source: fault code `-32500`; the fault
string is `"{exc.__class__.__name__}: {exc}"`. -/
def XMLRPCWrappedError (exc : PyExc) : Fault :=
  { faultCode := -32500, faultString := exc.kind ++ ": " ++ exc.detail }

/-- `XMLRPCInvalidParamTypes(exc)` from the source: the fault string is
`f"client error; {self.exc}"`; the fault code is inherited from
`pyramid_rpc.xmlrpc.XmlRpcInvalidMethodParams`, an external dependency not in
`src/`, which per the spec carries a fixed code distinct from the wrapped-error
code (`-32602`, the standard XML-RPC invalid-method-parameters code). -/
def XMLRPCInvalidParamTypes (exc : String) : Fault :=
  { faultCode := -32602, faultString := "client error; " ++ exc }

/-- An error propagating out of a pipeline stage: either one of the gateway's
protocol faults, or a raw Python exception that escaped (e.g. from the ORM). -/
inductive Raised where
  | fault (f : Fault)
  | exc (e : PyExc)
deriving Repr, DecidableEq

/-- The fixed prose of the rate-limit rejection, from the source of
`ratelimit()`. -/
def ratelimitBaseMessage : String :=
  "The action could not be performed because there were too many requests by the client."

/-- `max(1, int(_resets_in.total_seconds()))` from the source of `ratelimit()`,
with the remaining duration modelled in milliseconds: Python `int()` truncates
the fractional seconds toward zero. -/
def ratelimitResetSeconds (ms : Nat) : Nat :=
  max 1 (ms / 1000)

/-- The message carried by the rate-limit rejection, from the source of
`ratelimit()`: the base message, plus the reset hint when the limiter reports
a remaining duration (given in milliseconds). -/
def ratelimitMessage (resetsInMs : Option Nat) : String :=
  match resetsInMs with
  | none => ratelimitBaseMessage
  | some ms =>
      ratelimitBaseMessage ++
        (" Limit may reset in " ++ (toString (ratelimitResetSeconds ms) ++ " seconds."))

/-- The reset-second count as the claim words it: the ceiling of the duration
in seconds, floored at 1 (duration given in milliseconds). Stated here only to
be compared against the source's `ratelimitResetSeconds`. -/
def claimCeilResetSeconds (ms : Nat) : Nat :=
  max 1 ((ms + 999) / 1000)

/-- `sub` occurs contiguously inside `s`. -/
def strHasSub (s sub : String) : Prop :=
  sub.data <:+: s.data

/-- `suf` is a trailing segment of `s`. -/
def strHasSuffix (s suf : String) : Prop :=
  suf.data <:+ s.data

instance (s sub : String) : Decidable (strHasSub s sub) :=
  inferInstanceAs (Decidable (sub.data <:+: s.data))

instance (s suf : String) : Decidable (strHasSuffix s suf) :=
  inferInstanceAs (Decidable (suf.data <:+ s.data))

/-- The character class of `_illegal_xml_chars_re` from the source: each
bracket range of `_illegal_ranges`, tested on the code point. -/
def isIllegalXmlChar (c : Char) : Bool :=
  let n := c.toNat
  decide (n ≤ 0x08) ||
  (decide (0x0b ≤ n) && decide (n ≤ 0x0c)) ||
  (decide (0x0e ≤ n) && decide (n ≤ 0x1f)) ||
  (decide (0x7f ≤ n) && decide (n ≤ 0x84)) ||
  (decide (0x86 ≤ n) && decide (n ≤ 0x9f)) ||
  (decide (0xfdd0 ≤ n) && decide (n ≤ 0xfddf)) ||
  (decide (0xfffe ≤ n) && decide (n ≤ 0xffff)) ||
  (decide (0x1fffe ≤ n) && decide (n ≤ 0x1ffff)) ||
  (decide (0x2fffe ≤ n) && decide (n ≤ 0x2ffff)) ||
  (decide (0x3fffe ≤ n) && decide (n ≤ 0x3ffff)) ||
  (decide (0x4fffe ≤ n) && decide (n ≤ 0x4ffff)) ||
  (decide (0x5fffe ≤ n) && decide (n ≤ 0x5ffff)) ||
  (decide (0x6fffe ≤ n) && decide (n ≤ 0x6ffff)) ||
  (decide (0x7fffe ≤ n) && decide (n ≤ 0x7ffff)) ||
  (decide (0x8fffe ≤ n) && decide (n ≤ 0x8ffff)) ||
  (decide (0x9fffe ≤ n) && decide (n ≤ 0x9ffff)) ||
  (decide (0xafffe ≤ n) && decide (n ≤ 0xaffff)) ||
  (decide (0xbfffe ≤ n) && decide (n ≤ 0xbffff)) ||
  (decide (0xcfffe ≤ n) && decide (n ≤ 0xcffff)) ||
  (decide (0xdfffe ≤ n) && decide (n ≤ 0xdffff)) ||
  (decide (0xefffe ≤ n) && decide (n ≤ 0xeffff)) ||
  (decide (0xffffe ≤ n) && decide (n ≤ 0xfffff)) ||
  (decide (0x10fffe ≤ n) && decide (n ≤ 0x10ffff))

/-- `_illegal_xml_chars_re.sub("", data)`: drop every character matching the
illegal class. -/
def removeIllegalXmlChars (l : List Char) : List Char :=
  l.filter (fun c => !isIllegalXmlChar c)

/-- The decimal digit character for `d` (`d` intended below 10). -/
def decDigitChar (d : Nat) : Char :=
  if d = 0 then '0' else if d = 1 then '1' else if d = 2 then '2'
  else if d = 3 then '3' else if d = 4 then '4' else if d = 5 then '5'
  else if d = 6 then '6' else if d = 7 then '7' else if d = 8 then '8' else '9'

/-- Accumulate the decimal digits of `n` (most significant first). -/
def decDigitsAux (n : Nat) (acc : List Char) : List Char :=
  if h : n = 0 then acc
  else decDigitsAux (n / 10) (decDigitChar (n % 10) :: acc)
termination_by n
decreasing_by exact Nat.div_lt_self (Nat.pos_of_ne_zero h) (by decide)

/-- The decimal rendering of `n`, as Python `str(int)` produces inside a
character reference. -/
def decDigits (n : Nat) : List Char :=
  if n = 0 then ['0'] else decDigitsAux n []

/-- The XML numeric character reference `&#NNNN;` emitted by the
`xmlcharrefreplace` error handler for a non-ASCII character. -/
def xmlCharRef (c : Char) : List Char :=
  '&' :: '#' :: (decDigits c.toNat ++ [';'])

/-- `data.encode("ascii", "xmlcharrefreplace").decode("ascii")`: characters
below `0x80` pass through, every other character becomes its numeric
character reference. -/
def asciiXmlcharrefreplace : List Char → List Char
  | [] => []
  | c :: rest =>
      (if c.toNat ≤ 0x7f then [c] else xmlCharRef c) ++ asciiXmlcharrefreplace rest

/-- The body of `_clean_for_xml` on a non-empty string: ASCII-encode with
character references, then strip the remaining illegal characters. -/
def cleanChars (l : List Char) : List Char :=
  removeIllegalXmlChars (asciiXmlcharrefreplace l)

/-- `_clean_for_xml` on a string value: Python's `if data:` leaves the empty
string untouched. -/
def cleanForXmlStr (s : String) : String :=
  if s = "" then s else String.mk (cleanChars s.data)

/-- `_clean_for_xml(data)` from the source, on an optional string: `None` and
`""` are falsy and pass through unchanged; other text is sanitized. -/
def _clean_for_xml (data : Option String) : Option String :=
  match data with
  | none => none
  | some s => some (cleanForXmlStr s)

/-- The character class `[-_.]` of `packaging.utils.canonicalize_name`'s
regular expression. -/
def isNameSep (c : Char) : Bool :=
  c == '-' || c == '_' || c == '.'

/-- `re.sub(r"[-_.]+", "-", name)`: collapse every run of separator
characters into a single hyphen; the boolean records whether the previous
character was part of such a run. -/
def collapseSeps (prevSep : Bool) : List Char → List Char
  | [] => []
  | c :: rest =>
      if isNameSep c then
        if prevSep then collapseSeps true rest
        else '-' :: collapseSeps true rest
      else c :: collapseSeps false rest

/-- Modelled from the spec: the canonicalization applied to the cache-tag
argument ("lower-casing and punctuation normalization of a name"); the
function itself is `packaging.utils.canonicalize_name`, an external
dependency not in `src/`: `re.sub(r"[-_.]+", "-", name).lower()`. -/
def canonicalize_name (name : String) : String :=
  String.mk ((collapseSeps false name.data).map Char.toLower)

/-- One cache policy as passed to `xmlrpc_method` by the two
`functools.partial` wrappers in the source. -/
structure CachePolicy where
  xmlrpc_cache_expires : Nat
  xmlrpc_cache_tag : String
  xmlrpc_cache_arg_index : Option Nat
  xmlrpc_cache_tag_processor : Option (String → String)

/-- The cache keyword arguments bound by `xmlrpc_cache_by_project`. -/
def xmlrpc_cache_by_project : CachePolicy :=
  { xmlrpc_cache_expires := 48 * 60 * 60
    xmlrpc_cache_tag := "project/%s"
    xmlrpc_cache_arg_index := some 0
    xmlrpc_cache_tag_processor := some canonicalize_name }

/-- The cache keyword arguments bound by `xmlrpc_cache_all_projects`. -/
def xmlrpc_cache_all_projects : CachePolicy :=
  { xmlrpc_cache_expires := 1 * 60 * 60
    xmlrpc_cache_tag := "all-projects"
    xmlrpc_cache_arg_index := none
    xmlrpc_cache_tag_processor := none }

/-- Substitute `repl` for the first `%s` occurring in the template. -/
def substPercentS : List Char → List Char → List Char
  | [], _ => []
  | '%' :: 's' :: rest, repl => repl ++ rest
  | c :: rest, repl => c :: substPercentS rest repl

/-- Modelled from the spec: `resolveTag(spec.cachePolicy, boundArgs)` — the
consumer of the cache keyword arguments lives in `pyramid_rpc`, outside
`src/`. A fixed policy yields its tag as-is; a derived policy substitutes the
processed positional argument at the policy's index into the template. The
TTL is the policy's `xmlrpc_cache_expires`. -/
def resolveTag (p : CachePolicy) (args : List String) : Option (String × Nat) :=
  match p.xmlrpc_cache_arg_index with
  | none => some (p.xmlrpc_cache_tag, p.xmlrpc_cache_expires)
  | some i =>
      (args.get? i).map fun a =>
        (String.mk (substPercentS p.xmlrpc_cache_tag.data
            ((p.xmlrpc_cache_tag_processor.getD id) a).data),
         p.xmlrpc_cache_expires)

/-- A decoded XML-RPC argument value, as the wire layer hands it to the view:
Python `None`, `bool`, `int`, `str`, `list`, or `dict`. -/
inductive Value where
  | vnull : Value
  | vbool (b : Bool) : Value
  | vint (n : Int) : Value
  | vstr (s : String) : Value
  | vlist (l : List Value) : Value
  | vmap (m : List (String × Value)) : Value
deriving Repr

/-- A declared parameter type, mirroring the annotations used by the views:
the pydantic strict primitives, `| None` optionals, `list[...]`,
`Mapping[StrictStr, ...]`, unions, and unannotated parameters. -/
inductive PType where
  | pstr : PType
  | pint : PType
  | pbool : PType
  | popt (t : PType) : PType
  | plist (t : PType) : PType
  | pmap (v : PType) : PType
  | punion (a b : PType) : PType
  | pany : PType

/-- Strict conformance of a value to a declared type: no coercion, so a
numeric string is not an integer and a bool is not an int. -/
def typeCheck : PType → Value → Bool
  | .pstr, .vstr _ => true
  | .pstr, _ => false
  | .pint, .vint _ => true
  | .pint, _ => false
  | .pbool, .vbool _ => true
  | .pbool, _ => false
  | .popt t, v =>
      match v with
      | .vnull => true
      | _ => typeCheck t v
  | .plist t, .vlist l => l.all (fun v => typeCheck t v)
  | .plist _, _ => false
  | .pmap t, .vmap m => m.all (fun kv => typeCheck t kv.2)
  | .pmap _, _ => false
  | .punion a b, v => typeCheck a v || typeCheck b v
  | .pany, _ => true

/-- One declared parameter of a view: name, annotation, and default value
when the parameter is optional. -/
structure Param where
  name : String
  type : PType
  default : Option Value

/-- The rendering pydantic v1 gives a violation location inside
`f"{e['loc']}"`: the one-element tuple of the parameter name. -/
def locRender (name : String) : String :=
  "('" ++ name ++ "',)"

/-- The pydantic v1 reason text for a value failing its declared type. -/
def typeErrMsg : PType → String
  | .pstr => "str type expected"
  | .pint => "value is not a valid integer"
  | .pbool => "value is not a valid boolean"
  | _ => "invalid value"

/-- One collected violation: the rendered parameter path and the reason. -/
structure Violation where
  loc : String
  msg : String
deriving Repr, DecidableEq

/-- `f"{e['loc']}: {e['msg']}"` from the source of
`TypedMapplyViewMapper.mapply`. -/
def renderViolation (v : Violation) : String :=
  v.loc ++ ": " ++ v.msg

/-- The value bound to parameter `p` at position `i`: positional argument
first, then keyword argument, then the declared default
(`ValidatedFunction.build_values` binding order). -/
def boundValue (p : Param) (i : Nat) (args : List Value)
    (kwargs : List (String × Value)) : Option Value :=
  match args.get? i with
  | some v => some v
  | none =>
      match kwargs.lookup p.name with
      | some v => some v
      | none => p.default

/-- The violations contributed by one parameter: `field required` when no
value can be bound, or the type reason when the bound value fails the strict
check. -/
def paramViolations (p : Param) (i : Nat) (args : List Value)
    (kwargs : List (String × Value)) : List Violation :=
  match boundValue p i args kwargs with
  | none => [{ loc := locRender p.name, msg := "field required" }]
  | some v =>
      if typeCheck p.type v then []
      else [{ loc := locRender p.name, msg := typeErrMsg p.type }]

/-- All violations of a call against a parameter schema, in declaration
order — `exc.errors()` collects every failure, not only the first. -/
def violations (schema : List Param) (args : List Value)
    (kwargs : List (String × Value)) : List Violation :=
  schema.enum.flatMap (fun ip => paramViolations ip.2 ip.1 args kwargs)

/-- `"; ".join(parts)` from the source of `TypedMapplyViewMapper.mapply`. -/
def joinSemi : List String → String
  | [] => ""
  | [s] => s
  | s :: rest => s ++ ("; " ++ joinSemi rest)

/-- An observable side effect of a pipeline stage, recorded in call order:
the rate limiter's `hit` and `test`, a metrics counter increment, the timing
measurement emitted when the `metrics.timed` block closes, and the entry into
the raw view. -/
inductive Event where
  | limiterHit : Event
  | limiterTest (ok : Bool) : Event
  | metricIncr (name : String) (tags : List String) : Event
  | metricTimed (name : String) (tags : List String) : Event
  | handlerRun : Event
deriving Repr, DecidableEq

/-- The mutable surroundings of one call: the caller's hit count and quota in
the external rate limiter, the limiter's reported reset duration
(milliseconds, when available), and the trace of recorded side effects. -/
structure World where
  hits : Nat
  quota : Nat
  resetsInMs : Option Nat
  trace : List Event
deriving Repr, DecidableEq

/-- A view pipeline stage: transforms the world and either produces a value
or raises. -/
def Stage : Type :=
  World → World × Except Raised Value

/-- `ratelimiter.hit(request.remote_addr)`: record one hit for the caller. -/
def limiterHit (w : World) : World :=
  { w with hits := w.hits + 1, trace := w.trace ++ [Event.limiterHit] }

/-- `ratelimiter.test(request.remote_addr)`: report whether the caller is
still within quota. -/
def limiterTest (w : World) : World × Bool :=
  let ok := decide (w.hits ≤ w.quota)
  ({ w with trace := w.trace ++ [Event.limiterTest ok] }, ok)

/-- `ratelimiter.resets_in(request.remote_addr)`: the remaining duration
until the caller's window resets, when the limiter can report one. -/
def limiterResetsIn (w : World) : Option Nat :=
  w.resetsInMs

/-- `metrics.increment(name, tags=...)`. -/
def metricIncrement (w : World) (name : String) (tags : List String) : World :=
  { w with trace := w.trace ++ [Event.metricIncr name tags] }

/-- The `ratelimit()` decorator from the source: record a hit, test the
quota, and either reject with a wrapped `HTTPTooManyRequests` carrying the
rate-limit message, or count the admitted call and run the inner stage. -/
def ratelimit (f : Stage) : Stage := fun w =>
  let w1 := limiterHit w
  let (w2, ok) := limiterTest w1
  if ok then
    let w3 := metricIncrement w2 "warehouse.xmlrpc.ratelimiter.hit" []
    f w3
  else
    let w3 := metricIncrement w2 "warehouse.xmlrpc.ratelimiter.exceeded" []
    (w3, Except.error (Raised.fault (XMLRPCWrappedError
      { kind := "HTTPTooManyRequests",
        detail := ratelimitMessage (limiterResetsIn w3) })))

/-- The `submit_xmlrpc_metrics(method=...)` decorator from the source:
increment the call counter, run the inner stage inside the timing block, and
record the timing measurement when the block closes. -/
def submit_xmlrpc_metrics (method : String) (f : Stage) : Stage := fun w =>
  let w1 := metricIncrement w "warehouse.xmlrpc.call" ["rpc_method:" ++ method]
  let (w2, r) := f w1
  ({ w2 with trace :=
      w2.trace ++ [Event.metricTimed "warehouse.xmlrpc.timing" ["rpc_method:" ++ method]] },
   r)

/-- A raw view body: receives the positional and keyword arguments and the
world (through which it reaches the database), and returns a value or
raises. -/
def View : Type :=
  List Value → List (String × Value) → World → World × Except Raised Value

/-- `TypedMapplyViewMapper.mapply` from the source: validate the arguments
against the schema; on any violations raise a single
`XMLRPCInvalidParamTypes` whose message joins every rendered violation with
`"; "`; otherwise invoke the view on the original arguments. -/
def mapply (schema : List Param) (fn : View) (args : List Value)
    (kwargs : List (String × Value)) : Stage := fun w =>
  match violations schema args kwargs with
  | [] => fn args kwargs { w with trace := w.trace ++ [Event.handlerRun] }
  | errs =>
      (w, Except.error (Raised.fault (XMLRPCInvalidParamTypes
        (joinSemi (errs.map renderViolation)))))

/-- One dispatch-table entry produced by registering a view: the default
keyword arguments `xmlrpc_method` forces, the method name, the declared
schema, and the raw view. -/
structure Registration where
  method : String
  require_csrf : Bool
  require_methods : List String
  schema : List Param
  view : View

/-- The single registration record `xmlrpc_method` builds before binding it
to each endpoint (`kwargs.update(...)` in the source). -/
def registerOne (method : String) (schema : List Param) (f : View) : Registration :=
  { method := method
    require_csrf := false
    require_methods := ["POST"]
    schema := schema
    view := f }

/-- `xmlrpc_method(**kwargs)` from the source: the chained decorators bind
the same view, with the same keyword arguments, to the three endpoints
`xmlrpc.pypi`, `xmlrpc.pypi_slash` and `xmlrpc.RPC2` (in decorator
application order). -/
def xmlrpc_method (method : String) (schema : List Param) (f : View) :
    List (String × Registration) :=
  [("xmlrpc.pypi", registerOne method schema f),
   ("xmlrpc.pypi_slash", registerOne method schema f),
   ("xmlrpc.RPC2", registerOne method schema f)]

/-- Invoking a registered view: the fixed composition order of the source —
metrics outermost, then the rate limiter, then the validating mapper around
the raw view. -/
def invoke (r : Registration) (args : List Value)
    (kwargs : List (String × Value)) : Stage :=
  submit_xmlrpc_metrics r.method (ratelimit (mapply r.schema r.view args kwargs))

/-- One row of the `JournalEntry` table, with `submitted_date` as the UTC
epoch timestamp in seconds (the integer the views render it to). -/
structure JournalRow where
  name : String
  version : String
  submitted_date : Int
  action : String
  id : Int
deriving Repr, DecidableEq

/-- One row of the `Project` table, with the two version-related hybrid
properties the views read (`latest_version` carries the version string when
present). -/
structure ProjectRow where
  name : String
  normalized_name : String
  all_versions : List String
  latest_version : Option String
  documentation_url : Option String
deriving Repr, DecidableEq

/-- One `Release` row joined with its project, carrying every column
`release_data` serializes. -/
structure ReleaseRow where
  project_name : String
  project_normalized_name : String
  project_documentation_url : Option String
  version : String
  home_page : Option String
  download_url : Option String
  project_urls : List (String × String)
  author : Option String
  author_email : Option String
  maintainer : Option String
  maintainer_email : Option String
  summary : Option String
  description_raw : String
  license : Option String
  keywords : Option String
  platform : Option String
  classifiers : List String
  requires : List String
  requires_dist : List String
  provides : List String
  provides_dist : List String
  obsoletes : List String
  obsoletes_dist : List String
  requires_python : Option String
  requires_external : List String
  pypi_ordering : Int

/-- The read-only data source the handlers query. -/
structure Db where
  projects : List ProjectRow
  releases : List ReleaseRow
  journals : List JournalRow

/-- The pieces of the pyramid request the embedded handlers read: the
configured domain and the two route-URL generators. -/
structure RequestModel where
  domain : String
  route_project_url : String → String
  route_release_url : String → String → String

/-- The outcome of SQLAlchemy's `.one()`: the single row, `NoResultFound`,
or `MultipleResultsFound`. -/
inductive OrmOne (α : Type) where
  | found (a : α) : OrmOne α
  | noResult : OrmOne α
  | multipleResults : OrmOne α

/-- `.one()` on the rows a query matched. -/
def ormOne : List α → OrmOne α
  | [] => OrmOne.noResult
  | [a] => OrmOne.found a
  | _ :: _ :: _ => OrmOne.multipleResults

/-- Modelled from the spec: the database function `normalize_pep426_name`
(defined by a warehouse migration, not under `src/`) canonicalizes a project
name the same way as `packaging.utils.canonicalize_name` ("lower-casing and
punctuation normalization"). -/
def normalize_pep426_name (name : String) : String :=
  canonicalize_name name

/-- `XMLRPC_DEPRECATION_URL` from the source. -/
def XMLRPC_DEPRECATION_URL : String :=
  "https://warehouse.pypa.io/api-reference/xml-rpc.html#deprecated-methods"

/-- The message of the `RuntimeError` wrapped by the removed `search`
method, parameterized by the configured domain as in the source. -/
def searchRemovedMessage (domain : String) : String :=
  "PyPI no longer supports 'pip search' (or XML-RPC search). " ++
    ("Please use https://" ++ domain ++ "/search (via a browser) instead. ") ++
    ("See " ++ XMLRPC_DEPRECATION_URL ++ " for more information.")

/-- The `search` view from the source: reads only the configured domain and
unconditionally raises a wrapped `RuntimeError`; the database is never
queried. -/
def search (db : Db) (req : RequestModel) (spec : Value) (operator : Value) :
    Except Raised Value :=
  Except.error (Raised.fault (XMLRPCWrappedError
    { kind := "RuntimeError", detail := searchRemovedMessage req.domain }))

/-- The message of the `RuntimeError` wrapped by the removed `top_packages`
method. -/
def topPackagesRemovedMessage : String :=
  "This API has been removed. Use BigQuery instead. " ++
    ("See " ++ XMLRPC_DEPRECATION_URL ++ " for more information.")

/-- The `top_packages` view from the source: unconditionally raises a
wrapped `RuntimeError`; the database is never queried. -/
def top_packages (db : Db) (num : Value) : Except Raised Value :=
  Except.error (Raised.fault (XMLRPCWrappedError
    { kind := "RuntimeError", detail := topPackagesRemovedMessage }))

/-- The message of the `RuntimeError` wrapped by the deprecated
`package_data` and `package_urls` methods. -/
def deprecatedMessage : String :=
  "This API has been deprecated. " ++
    ("See " ++ XMLRPC_DEPRECATION_URL ++ " for more information.")

/-- The `package_data` view from the source: unconditionally raises a
wrapped `RuntimeError`; the database is never queried. -/
def package_data (db : Db) (package_name version : Value) : Except Raised Value :=
  Except.error (Raised.fault (XMLRPCWrappedError
    { kind := "RuntimeError", detail := deprecatedMessage }))

/-- The `package_urls` view from the source: unconditionally raises a
wrapped `RuntimeError`; the database is never queried. -/
def package_urls (db : Db) (package_name version : Value) : Except Raised Value :=
  Except.error (Raised.fault (XMLRPCWrappedError
    { kind := "RuntimeError", detail := deprecatedMessage }))

/-- The `system.multicall` view from the source: unconditionally raises a
wrapped `ValueError`; the database is never queried. -/
def multicall (db : Db) (args : Value) : Except Raised Value :=
  Except.error (Raised.fault (XMLRPCWrappedError
    { kind := "ValueError",
      detail := "MultiCall requests have been deprecated, use individual requests instead." }))

/-- The `package_releases` view from the source: look up the single project
whose normalized name matches; `NoResultFound` is answered with the empty
list; otherwise return all versions or just the latest depending on
`show_hidden`. -/
def package_releases (db : Db) (package_name : String) (show_hidden : Bool) :
    Except Raised Value :=
  match ormOne (db.projects.filter
      (fun p => p.normalized_name == normalize_pep426_name package_name)) with
  | OrmOne.noResult => Except.ok (Value.vlist [])
  | OrmOne.multipleResults =>
      Except.error (Raised.exc
        { kind := "MultipleResultsFound",
          detail := "Multiple rows were found when exactly one was required" })
  | OrmOne.found project =>
      if show_hidden then
        Except.ok (Value.vlist (project.all_versions.map Value.vstr))
      else
        match project.latest_version with
        | none => Except.ok (Value.vlist [])
        | some v => Except.ok (Value.vlist [Value.vstr v])

/-- A Python value that is a string or `None`, as serialized to XML-RPC. -/
def vOptStr : Option String → Value
  | none => Value.vnull
  | some s => Value.vstr s

/-- The `release_data` view from the source: look up the single release of
the matching project at the given version; `NoResultFound` is answered with
the empty mapping; otherwise serialize the release's fields, sanitizing each
free-text one. -/
def release_data (db : Db) (req : RequestModel) (package_name version : String) :
    Except Raised Value :=
  match ormOne (db.releases.filter (fun r =>
      r.project_normalized_name == normalize_pep426_name package_name
        && r.version == version)) with
  | OrmOne.noResult => Except.ok (Value.vmap [])
  | OrmOne.multipleResults =>
      Except.error (Raised.exc
        { kind := "MultipleResultsFound",
          detail := "Multiple rows were found when exactly one was required" })
  | OrmOne.found release =>
      Except.ok (Value.vmap
        [("name", Value.vstr release.project_name),
         ("version", Value.vstr release.version),
         ("stable_version", Value.vnull),
         ("bugtrack_url", Value.vnull),
         ("package_url", Value.vstr (req.route_project_url release.project_name)),
         ("release_url",
          Value.vstr (req.route_release_url release.project_name release.version)),
         ("docs_url", vOptStr (_clean_for_xml release.project_documentation_url)),
         ("home_page", vOptStr (_clean_for_xml release.home_page)),
         ("download_url", vOptStr (_clean_for_xml release.download_url)),
         ("project_url",
          Value.vlist (release.project_urls.map (fun lu =>
            Value.vstr (cleanForXmlStr (lu.1 ++ ", " ++ lu.2))))),
         ("author", vOptStr (_clean_for_xml release.author)),
         ("author_email", vOptStr (_clean_for_xml release.author_email)),
         ("maintainer", vOptStr (_clean_for_xml release.maintainer)),
         ("maintainer_email", vOptStr (_clean_for_xml release.maintainer_email)),
         ("summary", vOptStr (_clean_for_xml release.summary)),
         ("description", Value.vstr (cleanForXmlStr release.description_raw)),
         ("license", vOptStr (_clean_for_xml release.license)),
         ("keywords", vOptStr (_clean_for_xml release.keywords)),
         ("platform", vOptStr release.platform),
         ("classifiers", Value.vlist (release.classifiers.map Value.vstr)),
         ("requires", Value.vlist (release.requires.map Value.vstr)),
         ("requires_dist", Value.vlist (release.requires_dist.map Value.vstr)),
         ("provides", Value.vlist (release.provides.map Value.vstr)),
         ("provides_dist", Value.vlist (release.provides_dist.map Value.vstr)),
         ("obsoletes", Value.vlist (release.obsoletes.map Value.vstr)),
         ("obsoletes_dist", Value.vlist (release.obsoletes_dist.map Value.vstr)),
         ("requires_python", vOptStr release.requires_python),
         ("requires_external",
          Value.vlist (release.requires_external.map Value.vstr)),
         ("_pypi_ordering", Value.vint release.pypi_ordering),
         ("downloads", Value.vmap
           [("last_day", Value.vint (-1)),
            ("last_week", Value.vint (-1)),
            ("last_month", Value.vint (-1))]),
         ("cheesecake_code_kwalitee_id", Value.vnull),
         ("cheesecake_documentation_id", Value.vnull),
         ("cheesecake_installability_id", Value.vnull)])

/-- The `ORDER BY JournalEntry.id` comparison. -/
def journalLe (a b : JournalRow) : Bool :=
  decide (a.id ≤ b.id)

/-- The rows `changelog_since_serial` iterates: filter `id > serial`, order
by `id`, `LIMIT 50000`. -/
def changelog_since_serial_entries (db : Db) (serial : Int) : List JournalRow :=
  (((db.journals.filter (fun e => decide (serial < e.id))).mergeSort journalLe).take 50000)

/-- The `changelog_since_serial` view from the source: each selected journal
row rendered as the 5-tuple (name, version, epoch seconds, sanitized action,
id). -/
def changelog_since_serial (db : Db) (serial : Int) :
    List (String × String × Int × String × Int) :=
  (changelog_since_serial_entries db serial).map (fun e =>
    (e.name, e.version, e.submitted_date, cleanForXmlStr e.action, e.id))

/-- The rows `changelog` iterates: filter `submitted_date > since`, order by
`id`, `LIMIT 50000`. -/
def changelog_entries (db : Db) (since : Int) : List JournalRow :=
  (((db.journals.filter (fun e => decide (since < e.submitted_date))).mergeSort
      journalLe).take 50000)

/-- One `changelog` result row before the `with_ids` truncation. -/
def changelogRow (e : JournalRow) : List Value :=
  [Value.vstr e.name, Value.vstr e.version, Value.vint e.submitted_date,
   Value.vstr e.action, Value.vint e.id]

/-- The `changelog` view from the source: the selected rows as 5-tuples, or
with the trailing id dropped (`r[:-1]`) when `with_ids` is false. -/
def changelog (db : Db) (since : Int) (with_ids : Bool) : List (List Value) :=
  if with_ids then
    (changelog_entries db since).map changelogRow
  else
    (changelog_entries db since).map (fun e => (changelogRow e).dropLast)

/-! ### Helper lemmas -/

theorem isInfix_append_right {α : Type} {x a : List α} (h : x <:+: a) (b : List α) :
    x <:+: a ++ b := by
  rcases h with ⟨s, t, rfl⟩
  exact ⟨s, t ++ b, by simp⟩

theorem decDigitChar_range (d : Nat) :
    48 ≤ (decDigitChar d).toNat ∧ (decDigitChar d).toNat ≤ 57 := by
  unfold decDigitChar
  repeat' split
  all_goals decide

theorem mem_decDigitsAux {d : Char} :
    ∀ (n : Nat) (acc : List Char), d ∈ decDigitsAux n acc →
      (48 ≤ d.toNat ∧ d.toNat ≤ 57) ∨ d ∈ acc := by
  intro n
  induction n using Nat.strong_induction_on with
  | _ n ih =>
    intro acc hd
    rw [decDigitsAux] at hd
    split at hd
    · exact Or.inr hd
    · rename_i h
      rcases ih (n / 10) (Nat.div_lt_self (Nat.pos_of_ne_zero h) (by decide)) _ hd with
        h1 | h2
      · exact Or.inl h1
      · rcases List.mem_cons.mp h2 with h3 | h3
        · exact Or.inl (h3 ▸ decDigitChar_range (n % 10))
        · exact Or.inr h3

theorem mem_decDigits {d : Char} (n : Nat) (h : d ∈ decDigits n) :
    48 ≤ d.toNat ∧ d.toNat ≤ 57 := by
  unfold decDigits at h
  split at h
  · have : d = '0' := by simpa using h
    subst this
    decide
  · rcases mem_decDigitsAux n [] h with h1 | h1
    · exact h1
    · cases h1

theorem mem_xmlCharRef_ascii {d c : Char} (h : d ∈ xmlCharRef c) : d.toNat ≤ 0x7f := by
  unfold xmlCharRef at h
  rcases List.mem_cons.mp h with h1 | h1
  · subst h1; decide
  · rcases List.mem_cons.mp h1 with h2 | h2
    · subst h2; decide
    · rcases List.mem_append.mp h2 with h3 | h3
      · have := mem_decDigits c.toNat h3
        omega
      · have : d = ';' := by simpa using h3
        subst this
        decide

theorem mem_asciiXmlcharrefreplace_ascii {d : Char} :
    ∀ {l : List Char}, d ∈ asciiXmlcharrefreplace l → d.toNat ≤ 0x7f := by
  intro l
  induction l with
  | nil => intro h; cases h
  | cons c rest ih =>
    intro h
    rcases List.mem_append.mp h with h1 | h1
    · split at h1
      · rename_i hc
        have : d = c := by simpa using h1
        subst this
        exact hc
      · exact mem_xmlCharRef_ascii h1
    · exact ih h1

theorem asciiXmlcharrefreplace_of_ascii :
    ∀ (l : List Char), (∀ c ∈ l, c.toNat ≤ 0x7f) → asciiXmlcharrefreplace l = l := by
  intro l
  induction l with
  | nil => intro _; rfl
  | cons c rest ih =>
    intro h
    have hc : c.toNat ≤ 0x7f := h c (List.mem_cons_self c rest)
    have hrest := ih (fun x hx => h x (List.mem_cons_of_mem c hx))
    simp only [asciiXmlcharrefreplace, if_pos hc, hrest, List.singleton_append]

theorem removeIllegalXmlChars_idem (l : List Char) :
    removeIllegalXmlChars (removeIllegalXmlChars l) = removeIllegalXmlChars l := by
  unfold removeIllegalXmlChars
  rw [List.filter_filter]
  congr 1
  funext c
  simp [Bool.and_self]

theorem mem_removeIllegalXmlChars {d : Char} {l : List Char}
    (h : d ∈ removeIllegalXmlChars l) : d ∈ l :=
  (List.mem_filter.mp h).1

theorem cleanChars_idem (l : List Char) : cleanChars (cleanChars l) = cleanChars l := by
  unfold cleanChars
  have hasc : ∀ c ∈ removeIllegalXmlChars (asciiXmlcharrefreplace l), c.toNat ≤ 0x7f :=
    fun c hc => mem_asciiXmlcharrefreplace_ascii (mem_removeIllegalXmlChars hc)
  rw [asciiXmlcharrefreplace_of_ascii _ hasc, removeIllegalXmlChars_idem]

theorem cleanForXmlStr_idem (s : String) :
    cleanForXmlStr (cleanForXmlStr s) = cleanForXmlStr s := by
  unfold cleanForXmlStr
  by_cases hs : s = ""
  · simp [hs]
  · rw [if_neg hs]
    by_cases ht : String.mk (cleanChars s.data) = ""
    · rw [if_pos ht]
    · rw [if_neg ht]
      show String.mk (cleanChars (cleanChars s.data)) = String.mk (cleanChars s.data)
      rw [cleanChars_idem]

theorem mem_joinSemi :
    ∀ (l : List String) (x : String), x ∈ l → x.data <:+: (joinSemi l).data := by
  intro l
  induction l with
  | nil => intro x hx; cases hx
  | cons s rest ih =>
    intro x hx
    match rest, hx with
    | [], hx =>
        have : x = s := by simpa using hx
        subst this
        exact List.infix_refl _
    | r :: rs, hx =>
        rcases List.mem_cons.mp hx with h1 | h1
        · subst h1
          show x.data <:+: (x ++ ("; " ++ joinSemi (r :: rs))).data
          rw [String.data_append]
          exact isInfix_append_right (List.infix_refl _) _
        · have hin := ih x h1
          show x.data <:+: (s ++ ("; " ++ joinSemi (r :: rs))).data
          rw [String.data_append, String.data_append]
          exact (hin.trans (List.suffix_append _ _).isInfix).trans
            (List.suffix_append _ _).isInfix

/-! ### Claim theorems -/

set_option maxRecDepth 4000 in
/-- Claim C1 (counterexample): for a reported reset duration of 2.7 seconds
the claim predicts `N = max(1, ceil(2.7)) = 3`, but the message the source
builds does not contain "Limit may reset in 3 seconds" anywhere — it ends
with "Limit may reset in 2 seconds.", because `int()` truncates the
fractional seconds instead of taking their ceiling. -/
theorem ratelimit_reset_hint_ceiling_counterexample :
    claimCeilResetSeconds 2700 = 3 ∧
    ¬ strHasSub (ratelimitMessage (some 2700)) "Limit may reset in 3 seconds" ∧
    strHasSuffix (ratelimitMessage (some 2700)) "Limit may reset in 2 seconds." := by
  refine ⟨rfl, ?_, ?_⟩ <;> decide

/-- Claim C1 (amended): the rate-limit rejection message always contains
"too many requests", and whenever the limiter reports a reset duration the
message ends with "Limit may reset in N seconds." where
`N = max(1, int(d.total_seconds()))` — the total seconds truncated toward
zero, not their ceiling. -/
theorem ratelimit_reset_hint_truncated_floor_one (ms : Nat) :
    strHasSub (ratelimitMessage none) "too many requests" ∧
    strHasSub (ratelimitMessage (some ms)) "too many requests" ∧
    ratelimitResetSeconds ms = max 1 (ms / 1000) ∧
    strHasSuffix (ratelimitMessage (some ms))
      ("Limit may reset in " ++ (toString (ratelimitResetSeconds ms) ++ " seconds.")) := by
  have hbase : ("too many requests").data <:+: ratelimitBaseMessage.data := by decide
  refine ⟨hbase, ?_, rfl, ?_⟩
  · show ("too many requests").data <:+:
      (ratelimitBaseMessage ++
        (" Limit may reset in " ++ (toString (ratelimitResetSeconds ms) ++ " seconds."))).data
    rw [String.data_append]
    exact isInfix_append_right hbase _
  · show ("Limit may reset in " ++ (toString (ratelimitResetSeconds ms) ++ " seconds.")).data <:+
      (ratelimitBaseMessage ++
        (" Limit may reset in " ++ (toString (ratelimitResetSeconds ms) ++ " seconds."))).data
    have hsp : (" Limit may reset in ").data = ' ' :: ("Limit may reset in ").data := rfl
    simp only [String.data_append, hsp]
    refine ⟨ratelimitBaseMessage.data ++ [' '], ?_⟩
    simp [List.append_assoc]

/-- Claim C5: the sanitizer is idempotent — `clean(clean(x)) = clean(x)` for
every optional input text — and both the empty string and absent text pass
through unchanged. -/
theorem clean_for_xml_idempotent (x : Option String) :
    _clean_for_xml (_clean_for_xml x) = _clean_for_xml x ∧
    _clean_for_xml (some "") = some "" ∧
    _clean_for_xml none = none := by
  refine ⟨?_, rfl, rfl⟩
  cases x with
  | none => rfl
  | some s =>
    show some (cleanForXmlStr (cleanForXmlStr s)) = some (cleanForXmlStr s)
    rw [cleanForXmlStr_idem]

/-- Claim C6: `XMLRPCServiceUnavailable` carries the fixed code `-32403` and
the fixed message "server error; service unavailable"; `XMLRPCWrappedError`
carries the fixed code `-32500` and renders the wrapped exception as
"kind: detail"; the invalid-parameters code is `-32602`; and the three codes
are pairwise distinct. -/
theorem fault_taxonomy_codes_and_messages (e : PyExc) (m : String) :
    XMLRPCServiceUnavailable.faultCode = -32403 ∧
    XMLRPCServiceUnavailable.faultString = "server error; service unavailable" ∧
    (XMLRPCWrappedError e).faultCode = -32500 ∧
    (XMLRPCWrappedError e).faultString = e.kind ++ ": " ++ e.detail ∧
    (XMLRPCInvalidParamTypes m).faultCode = -32602 ∧
    (XMLRPCWrappedError e).faultCode ≠ (XMLRPCInvalidParamTypes m).faultCode ∧
    (XMLRPCWrappedError e).faultCode ≠ XMLRPCServiceUnavailable.faultCode ∧
    XMLRPCServiceUnavailable.faultCode ≠ (XMLRPCInvalidParamTypes m).faultCode := by
  refine ⟨rfl, rfl, rfl, rfl, rfl, ?_, ?_, ?_⟩
  · exact (by decide : (-32500 : Int) ≠ -32602)
  · exact (by decide : (-32500 : Int) ≠ -32403)
  · exact (by decide : (-32403 : Int) ≠ -32602)

/-- Claim C7: each deprecated or removed method — `search`, `top_packages`,
`package_data`, `package_urls`, `system.multicall` — raises a
`XMLRPCWrappedError` fault whose message is fixed (given the configured
domain), for every argument set and every database state: the result does
not depend on the database, which is never queried. -/
theorem deprecated_methods_always_wrapped_error (d1 d2 d3 d4 d5 : Db)
    (req : RequestModel) (spec operator num pn ver pn2 ver2 margs : Value) :
    search d1 req spec operator = Except.error (Raised.fault (XMLRPCWrappedError
      { kind := "RuntimeError", detail := searchRemovedMessage req.domain })) ∧
    top_packages d2 num = Except.error (Raised.fault (XMLRPCWrappedError
      { kind := "RuntimeError", detail := topPackagesRemovedMessage })) ∧
    package_data d3 pn ver = Except.error (Raised.fault (XMLRPCWrappedError
      { kind := "RuntimeError", detail := deprecatedMessage })) ∧
    package_urls d4 pn2 ver2 = Except.error (Raised.fault (XMLRPCWrappedError
      { kind := "RuntimeError", detail := deprecatedMessage })) ∧
    multicall d5 margs = Except.error (Raised.fault (XMLRPCWrappedError
      { kind := "ValueError",
        detail := "MultiCall requests have been deprecated, use individual requests instead." })) := by
  exact ⟨rfl, rfl, rfl, rfl, rfl⟩

/-- Claim C2: whenever validation finds any violations, `mapply` raises
exactly one `XMLRPCInvalidParamTypes` fault without invoking the view, the
joined message covers the full violation list in order (joined by "; "),
and every single violation appears in the fault's message rendered as
"parameter-path: reason". -/
theorem mapply_collects_all_violations (schema : List Param) (fn : View)
    (args : List Value) (kwargs : List (String × Value)) (w : World)
    (h : violations schema args kwargs ≠ []) :
    mapply schema fn args kwargs w =
      (w, Except.error (Raised.fault (XMLRPCInvalidParamTypes
        (joinSemi ((violations schema args kwargs).map renderViolation))))) ∧
    ∀ v ∈ violations schema args kwargs,
      strHasSub (XMLRPCInvalidParamTypes
          (joinSemi ((violations schema args kwargs).map renderViolation))).faultString
        (renderViolation v) := by
  constructor
  · unfold mapply
    split
    · rename_i heq
      exact absurd heq h
    · rfl
  · intro v hv
    show (renderViolation v).data <:+:
      ("client error; " ++ joinSemi ((violations schema args kwargs).map renderViolation)).data
    rw [String.data_append]
    exact (mem_joinSemi _ _ (List.mem_map_of_mem renderViolation hv)).trans
      (List.suffix_append _ _).isInfix

/-- Claim C2 (witness): a call with a wrongly-typed `name` and a missing
`count` yields the single invalid-parameters fault enumerating both
violations. -/
theorem mapply_collects_all_violations_witness :
    mapply
        [{ name := "name", type := PType.pstr, default := none },
         { name := "count", type := PType.pint, default := none }]
        (fun _ _ w => (w, Except.ok Value.vnull)) [Value.vbool true] []
        { hits := 0, quota := 1, resetsInMs := none, trace := [] } =
      ({ hits := 0, quota := 1, resetsInMs := none, trace := [] },
       Except.error (Raised.fault (XMLRPCInvalidParamTypes
         "('name',): str type expected; ('count',): field required"))) :=
  (mapply_collects_all_violations _ _ _ _ _ (by decide)).1

/-- Claim C3: the rate-limiter adapter records exactly one hit before the
quota test is performed, whatever the outcome — the trace always extends by
`limiterHit` and then `limiterTest`, the hit count passed on (or left
behind on rejection) is the incremented one, and a rejection therefore never
happens without the hit having been recorded first. -/
theorem ratelimit_hit_recorded_before_test (w : World) (f : Stage) :
    ratelimit f w =
      (if w.hits + 1 ≤ w.quota then
        f { w with
              hits := w.hits + 1
              trace := w.trace ++ [Event.limiterHit, Event.limiterTest true,
                Event.metricIncr "warehouse.xmlrpc.ratelimiter.hit" []] }
      else
        ({ w with
             hits := w.hits + 1
             trace := w.trace ++ [Event.limiterHit, Event.limiterTest false,
               Event.metricIncr "warehouse.xmlrpc.ratelimiter.exceeded" []] },
         Except.error (Raised.fault (XMLRPCWrappedError
           { kind := "HTTPTooManyRequests",
             detail := ratelimitMessage w.resetsInMs })))) := by
  unfold ratelimit limiterHit limiterTest metricIncrement limiterResetsIn
  by_cases h : w.hits + 1 ≤ w.quota
  · simp [h, List.append_assoc]
  · simp [h, List.append_assoc]

/-- Claim C4: any two endpoint aliases registered by `xmlrpc_method` for the
same method carry identical registrations, so invoking the method through
either alias — with the same arguments against the same world — runs the
identical pipeline (metrics, rate limit, validation, view) and produces the
identical result or fault. -/
theorem xmlrpc_aliases_identical_behavior (method : String) (schema : List Param)
    (f : View) (e1 e2 : String) (r1 r2 : Registration)
    (h1 : (e1, r1) ∈ xmlrpc_method method schema f)
    (h2 : (e2, r2) ∈ xmlrpc_method method schema f)
    (args : List Value) (kwargs : List (String × Value)) (w : World) :
    invoke r1 args kwargs w = invoke r2 args kwargs w := by
  have hr1 : r1 = registerOne method schema f := by
    simp only [xmlrpc_method, List.mem_cons, List.mem_singleton, Prod.mk.injEq,
      List.not_mem_nil, or_false] at h1
    rcases h1 with ⟨-, h⟩ | ⟨-, h⟩ | ⟨-, h⟩ <;> exact h
  have hr2 : r2 = registerOne method schema f := by
    simp only [xmlrpc_method, List.mem_cons, List.mem_singleton, Prod.mk.injEq,
      List.not_mem_nil, or_false] at h2
    rcases h2 with ⟨-, h⟩ | ⟨-, h⟩ | ⟨-, h⟩ <;> exact h
  rw [hr1, hr2]

/-- Claim C4 (witness): the `xmlrpc.RPC2` and `xmlrpc.pypi` aliases of a
concrete registered method behave identically on a concrete call. -/
theorem xmlrpc_aliases_identical_behavior_witness :
    invoke (registerOne "test_method" [] (fun _ _ w => (w, Except.ok Value.vnull)))
        [] [] { hits := 0, quota := 1, resetsInMs := none, trace := [] } =
      invoke (registerOne "test_method" [] (fun _ _ w => (w, Except.ok Value.vnull)))
        [] [] { hits := 0, quota := 1, resetsInMs := none, trace := [] } :=
  xmlrpc_aliases_identical_behavior "test_method" []
    (fun _ _ w => (w, Except.ok Value.vnull)) "xmlrpc.RPC2" "xmlrpc.pypi" _ _
    (List.mem_cons_of_mem _ (List.mem_cons_of_mem _ (List.mem_cons_self _ _)))
    (List.mem_cons_self _ _) [] []
    { hits := 0, quota := 1, resetsInMs := none, trace := [] }

/-- Claim C8: the fixed-tag policy (`xmlrpc_cache_all_projects`) resolves to
the constant tag "all-projects" with the 1-hour TTL for every argument list;
the derived policy (`xmlrpc_cache_by_project`) substitutes the canonicalized
argument 0 into its template with the 48-hour TTL, and "Foo-Bar" and
"foo_bar" resolve to the same tag "project/foo-bar" because canonicalization
normalizes case and separators. -/
theorem cache_tag_resolution (args rest : List String) (name : String) :
    resolveTag xmlrpc_cache_all_projects args = some ("all-projects", 1 * 60 * 60) ∧
    resolveTag xmlrpc_cache_by_project (name :: rest) =
      some (String.mk (substPercentS ("project/%s").data (canonicalize_name name).data),
        48 * 60 * 60) ∧
    resolveTag xmlrpc_cache_by_project ("Foo-Bar" :: rest) =
      resolveTag xmlrpc_cache_by_project ("foo_bar" :: rest) ∧
    resolveTag xmlrpc_cache_by_project ("Foo-Bar" :: rest) =
      some ("project/foo-bar", 48 * 60 * 60) := by
  exact ⟨rfl, rfl, rfl, rfl⟩

theorem journalLe_trans (a b c : JournalRow) (hab : journalLe a b)
    (hbc : journalLe b c) : journalLe a c := by
  unfold journalLe at *
  simp only [decide_eq_true_eq] at *
  omega

theorem journalLe_total (a b : JournalRow) : journalLe a b || journalLe b a := by
  unfold journalLe
  simp only [Bool.or_eq_true, decide_eq_true_eq]
  omega

theorem changelog_since_serial_entries_props (db : Db) (serial : Int) :
    (∀ e ∈ changelog_since_serial_entries db serial, serial < e.id) ∧
    (changelog_since_serial_entries db serial).Pairwise (fun a b => a.id ≤ b.id) := by
  constructor
  · intro e he
    have h1 : e ∈ (db.journals.filter (fun e => decide (serial < e.id))).mergeSort journalLe :=
      (List.take_sublist _ _).subset he
    have h2 := (List.mergeSort_perm _ journalLe).mem_iff.mp h1
    exact of_decide_eq_true (List.mem_filter.mp h2).2
  · have hs : ((db.journals.filter (fun e => decide (serial < e.id))).mergeSort
        journalLe).Pairwise (fun a b => journalLe a b) :=
      List.sorted_mergeSort (fun a b c => journalLe_trans a b c) journalLe_total _
    have ht := List.Pairwise.sublist (List.take_sublist 50000 _) hs
    exact ht.imp (fun h => of_decide_eq_true h)

theorem changelog_entries_props (db : Db) (since : Int) :
    (∀ e ∈ changelog_entries db since, since < e.submitted_date) ∧
    (changelog_entries db since).Pairwise (fun a b => a.id ≤ b.id) := by
  constructor
  · intro e he
    have h1 : e ∈ (db.journals.filter
        (fun e => decide (since < e.submitted_date))).mergeSort journalLe :=
      (List.take_sublist _ _).subset he
    have h2 := (List.mergeSort_perm _ journalLe).mem_iff.mp h1
    exact of_decide_eq_true (List.mem_filter.mp h2).2
  · have hs : ((db.journals.filter
        (fun e => decide (since < e.submitted_date))).mergeSort
        journalLe).Pairwise (fun a b => journalLe a b) :=
      List.sorted_mergeSort (fun a b c => journalLe_trans a b c) journalLe_total _
    have ht := List.Pairwise.sublist (List.take_sublist 50000 _) hs
    exact ht.imp (fun h => of_decide_eq_true h)

/-- Claim C9: `changelog_since_serial` returns only rows with id strictly
greater than the given serial, in ascending id order, and at most 50000 of
them; `changelog` likewise selects only rows submitted strictly after the
given timestamp, iterates them in ascending id order, and returns at most
50000 rows (for either value of `with_ids`). -/
theorem changelog_filtered_ordered_capped (db : Db) (serial since : Int)
    (with_ids : Bool) :
    (∀ t ∈ changelog_since_serial db serial, serial < t.2.2.2.2) ∧
    (changelog_since_serial db serial).Pairwise (fun a b => a.2.2.2.2 ≤ b.2.2.2.2) ∧
    (changelog_since_serial db serial).length ≤ 50000 ∧
    (∀ e ∈ changelog_entries db since, since < e.submitted_date) ∧
    (changelog_entries db since).Pairwise (fun a b => a.id ≤ b.id) ∧
    (changelog db since with_ids).length ≤ 50000 := by
  obtain ⟨hmem, hpw⟩ := changelog_since_serial_entries_props db serial
  obtain ⟨hmem2, hpw2⟩ := changelog_entries_props db since
  refine ⟨?_, ?_, ?_, hmem2, hpw2, ?_⟩
  · intro t ht
    obtain ⟨e, he, rfl⟩ := List.mem_map.mp ht
    exact hmem e he
  · exact List.pairwise_map.mpr hpw
  · rw [changelog_since_serial, List.length_map]
    exact List.length_take_le _ _
  · cases with_ids <;>
      simp only [changelog, Bool.false_eq_true, if_false, if_true, List.length_map] <;>
      exact List.length_take_le _ _

/-- Claim C9 (witness): on a one-row journal, the row returned for serial 0
indeed has its id strictly above the serial. -/
theorem changelog_filtered_ordered_capped_witness : (0 : Int) < 5 := by
  have hmem : ("pkg", "1.0", (10 : Int), "new release", (5 : Int)) ∈
      changelog_since_serial
        { projects := [], releases := [],
          journals := [{ name := "pkg", version := "1.0", submitted_date := 10,
                         action := "new release", id := 5 }] } 0 := by
    have hclean : cleanForXmlStr "new release" = "new release" := by decide
    simp [changelog_since_serial, changelog_since_serial_entries, hclean]
  exact (changelog_filtered_ordered_capped
      { projects := [], releases := [],
        journals := [{ name := "pkg", version := "1.0", submitted_date := 10,
                       action := "new release", id := 5 }] }
      0 0 true).1
    ("pkg", "1.0", 10, "new release", 5) hmem

/-- Claim C10: a lookup miss is answered with a normal success value, not a
fault — when no project row matches the package name, `package_releases`
returns the empty list, and when no release row matches the (package,
version) pair, `release_data` returns the empty mapping. -/
theorem lookup_miss_returns_empty (db1 db2 : Db) (req : RequestModel)
    (name1 name2 ver : String) (show_hidden : Bool)
    (h1 : db1.projects.filter
      (fun p => p.normalized_name == normalize_pep426_name name1) = [])
    (h2 : db2.releases.filter
      (fun r => r.project_normalized_name == normalize_pep426_name name2
        && r.version == ver) = []) :
    package_releases db1 name1 show_hidden = Except.ok (Value.vlist []) ∧
    release_data db2 req name2 ver = Except.ok (Value.vmap []) := by
  constructor
  · unfold package_releases
    rw [h1]
    rfl
  · unfold release_data
    rw [h2]
    rfl

/-- Claim C10 (witness): on the empty database both lookups miss and return
the empty list and the empty mapping. -/
theorem lookup_miss_returns_empty_witness :
    package_releases { projects := [], releases := [], journals := [] } "pkg" false =
        Except.ok (Value.vlist []) ∧
    release_data { projects := [], releases := [], journals := [] }
        { domain := "example.com", route_project_url := fun _ => "",
          route_release_url := fun _ _ => "" } "pkg" "1.0" =
      Except.ok (Value.vmap []) :=
  lookup_miss_returns_empty
    { projects := [], releases := [], journals := [] }
    { projects := [], releases := [], journals := [] }
    { domain := "example.com", route_project_url := fun _ => "",
      route_release_url := fun _ _ => "" }
    "pkg" "pkg" "1.0" false rfl rfl
